import Mathlib

/-!
Shallow embedding of the audio-file storage and archival pipeline
(`app/auth.py`, `app/utils.py`, `app/models/audio.py`, `app/database.py`,
`app/api/v1/audio.py`) together with theorems settling the spec claims.

Modelling conventions:
* bytes are `Nat`; a byte stream is a list of read events (each read either
  yields a chunk of bytes or raises an I/O error, mirroring `await file.read`);
* the file system is an association list from path strings to byte contents;
* Python `str.strip()` is modelled by `pyStrip` over the whitespace
  characters relevant here (the latin-1 part of Python's whitespace class);
* Python `str.lower()` is modelled by `pyLower` (ASCII folding — all
  concrete data in the claims is ASCII) and `str.split` by `splitOnChar`;
* nondeterministic inputs of the code (UUIDs, timestamps, the outcome of the
  database commit, the outcome of `os.unlink`) are passed as parameters.
-/

set_option autoImplicit false
set_option maxRecDepth 16384

namespace App

/-- Whitespace class used by Python `str.strip()` (latin-1 subset):
space, tab, LF, CR, VT, FF, the file/group/record/unit separators 28..31,
NEL 133 and NBSP 160. -/
def isPySpace (c : Char) : Bool :=
  c == ' ' || c == '\t' || c == '\n' || c == '\r' ||
  c.toNat == 11 || c.toNat == 12 ||
  (28 ≤ c.toNat && c.toNat ≤ 31) || c.toNat == 133 || c.toNat == 160

/-- Python `s.strip()` on a character list: drop leading and trailing
whitespace. -/
def stripChars (s : List Char) : List Char :=
  ((s.dropWhile isPySpace).reverse.dropWhile isPySpace).reverse

/-- Python `s.strip()` on a string. -/
def pyStrip (s : String) : String :=
  ⟨stripChars s.data⟩

/-- Embedding of `app/auth.py::clean_input`:
`''.join(c for c in text if ord(c) >= 32)[:255].strip()`, with the
empty-input guard `if not text: return ""`. -/
def clean_input (text : String) : String :=
  if text = "" then ""
  else pyStrip ⟨(text.data.filter (fun c => 32 ≤ c.toNat)).take 255⟩

/-- Python `s.split(sep)` for a one-character separator, on character
lists; `"".split(",") == [""]`. -/
def splitOnChar (sep : Char) : List Char → List (List Char)
  | [] => [[]]
  | c :: rest =>
    if c = sep then [] :: splitOnChar sep rest
    else
      match splitOnChar sep rest with
      | [] => [[c]]
      | h :: t => (c :: h) :: t

/-- Python `s.split(",")` on strings. -/
def pySplitComma (s : String) : List String :=
  (splitOnChar ',' s.data).map (fun l => ⟨l⟩)

/-- Python `s.lower()` (ASCII folding; all concrete data here is ASCII). -/
def pyLower (s : String) : String :=
  ⟨s.data.map Char.toLower⟩

/-- The on-disk store: an association list from absolute path to the byte
content stored there (first binding wins). -/
abbrev FS := List (String × List Nat)

namespace FS

/-- Content at a path, if a file exists there. -/
def lookup (fs : FS) (p : String) : Option (List Nat) :=
  match fs with
  | [] => none
  | (q, c) :: rest => if q = p then some c else lookup rest p

/-- Remove every binding for a path (`os.unlink`, assuming it succeeds). -/
def erase (fs : FS) (p : String) : FS :=
  match fs with
  | [] => []
  | b :: rest => if b.1 = p then erase rest p else b :: erase rest p

/-- Create or overwrite the file at a path (`open(p, 'wb')` then writes). -/
def write (fs : FS) (p : String) (c : List Nat) : FS :=
  (p, c) :: fs.erase p

/-- Append bytes to the file at a path (incremental chunk write). -/
def append (fs : FS) (p : String) (c : List Nat) : FS :=
  fs.write p (((fs.lookup p).getD []) ++ c)

/-- Whether a file exists at a path (`os.path.exists`). -/
def pathExists (fs : FS) (p : String) : Bool :=
  (fs.lookup p).isSome

end FS

/-- Embedding of `app/utils.py::FileConfig` (the two data fields; the logger
carries no semantics). The allowed types are kept as a list with set
membership semantics. -/
structure FileConfig where
  supported_audio_types : List String
  max_file_size : Nat

/-- The default configuration `_file_config`:
types `{'audio/mpeg', 'audio/mp3'}`, limit 50 MiB. -/
def defaultFileConfig : FileConfig :=
  { supported_audio_types := ["audio/mpeg", "audio/mp3"]
    max_file_size := 50 * 1024 * 1024 }

/-- One result of `await file.read(chunk_size)`: a chunk of bytes (an empty
chunk ends the loop) or a raised I/O error. -/
inductive ReadEvent where
  | chunk (bytes : List Nat)
  | ioFail
deriving DecidableEq, Repr

/-- The incoming `UploadFile`: optional filename, optional declared size,
optional declared content type, and the stream of read results. -/
structure UploadFileIn where
  filename : Option String
  size : Option Nat
  content_type : Option String
  events : List ReadEvent

/-- Insert a string into an ascending list (helper for Python `sorted`). -/
def insertSorted (s : String) : List String → List String
  | [] => [s]
  | t :: rest => if s ≤ t then s :: t :: rest else t :: insertSorted s rest

/-- Python `sorted` on a list of strings (ascending lexicographic). -/
def sortStrings (l : List String) : List String :=
  l.foldr insertSorted []

/-- Python `sep.join(parts)`. -/
def joinWith (sep : String) : List String → String
  | [] => ""
  | [s] => s
  | s :: rest => s ++ sep ++ joinWith sep rest

/-- The message built by `validate_audio_file` for an unsupported type. -/
def unsupportedMsg (cfg : FileConfig) : String :=
  "This is an unsupported file type. Supported types: " ++
    joinWith ", " (sortStrings cfg.supported_audio_types)

/-- The declared-size check of `validate_audio_file`:
`hasattr(file, 'size') and file.size and file.size > config.max_file_size`
(a size of 0 is falsy and skips the check). -/
def declaredTooLarge (size : Option Nat) (cfg : FileConfig) : Bool :=
  match size with
  | some s => s != 0 && decide (cfg.max_file_size < s)
  | none => false

/-- Embedding of `app/utils.py::validate_audio_file`. Returns the
`(bool, str)` pair of the source: on success the string is the effective
content type, on failure the error message. `guess` stands for
`mimetypes.guess_type` on the filename. -/
def validate_audio_file (file : UploadFileIn) (guess : String → Option String)
    (cfg : FileConfig) : Bool × String :=
  if file.filename.getD "" = "" then (false, "No file provided")
  else if declaredTooLarge file.size cfg then
    (false, "File too large (max " ++ toString (cfg.max_file_size / (1024 * 1024)) ++ "MB)")
  else
    let fallback : Bool × String :=
      match guess (file.filename.getD "") with
      | some g =>
        if cfg.supported_audio_types.contains g then (true, g)
        else (false, unsupportedMsg cfg)
      | none => (false, unsupportedMsg cfg)
    match file.content_type with
    | some t => if cfg.supported_audio_types.contains t then (true, t) else fallback
    | none => fallback

/-- Result of `save_uploaded_file`: the byte count on success, the 413
`TooLarge` HTTPException, or any other exception re-raised after cleanup. -/
inductive SaveResult where
  | ok (size : Nat)
  | tooLarge
  | ioError
deriving DecidableEq, Repr

/-- The chunked write loop of `save_uploaded_file`: read a chunk, add its
length to the running total, append it to the destination, then abort
(deleting the destination) once the total exceeds `maxSize`; a failing read
deletes the destination and re-raises. -/
def saveLoop (fs : FS) (path : String) (events : List ReadEvent)
    (maxSize size : Nat) : FS × SaveResult :=
  match events with
  | [] => (fs, .ok size)
  | .ioFail :: _ => (fs.erase path, .ioError)
  | .chunk c :: rest =>
    if c.isEmpty then (fs, .ok size)
    else
      let size' := size + c.length
      let fs' := fs.append path c
      if maxSize < size' then (fs'.erase path, .tooLarge)
      else saveLoop fs' path rest maxSize size'

/-- Embedding of `app/utils.py::save_uploaded_file`: `open(file_path, 'wb')`
creates the empty destination, then the loop runs with a zero running
total. -/
def save_uploaded_file (fs : FS) (path : String) (events : List ReadEvent)
    (maxSize : Nat) : FS × SaveResult :=
  saveLoop (fs.write path []) path events maxSize 0

/-- The bytes a stream actually delivers: the concatenation of its chunks up
to the first empty chunk or I/O failure. -/
def deliveredBytes : List ReadEvent → List Nat
  | [] => []
  | .ioFail :: _ => []
  | .chunk c :: rest => if c.isEmpty then [] else c ++ deliveredBytes rest

/-- Python `Path(name).suffix`: the extension of the last path component,
i.e. `name[i:]` for the last dot index `i` when `0 < i < len(name) - 1`,
else the empty string. -/
def pathSuffix (name : String) : String :=
  let cs := (splitOnChar '/' name.data).getLastD []
  let revIdx := cs.reverse.indexOf '.'
  if revIdx = cs.length then ""
  else
    let i := cs.length - 1 - revIdx
    if 0 < i ∧ i < cs.length - 1 then ⟨cs.drop i⟩ else ""

/-- Embedding of `app/utils.py::generate_unique_filename`:
`f"{uuid.uuid4()}{Path(original_filename).suffix}"`, with the generated
UUID passed in as a parameter. -/
def generate_unique_filename (uuid : String) (original_filename : String) : String :=
  uuid ++ pathSuffix original_filename

/-- Embedding of `UploadRequest.get_parsed_tags`
(`app/models/audio.py`): empty tag text yields no tags, otherwise split on
the comma, strip each entry, keep the non-empty stripped entries. -/
def get_parsed_tags (tags : String) : List String :=
  if tags = "" then []
  else ((pySplitComma tags).map pyStrip).filter (fun t => t ≠ "")

/-- The validated field values of an `UploadRequest`. -/
structure UploadRequest where
  user_id : String
  tags : String
  additional_info : String
deriving DecidableEq, Repr

/-- Construction of `UploadRequest` with its pydantic validators:
`user_id` must be non-blank and is stripped; `tags` and `additional_info`
are stripped. -/
def mkUploadRequest (user_id tags additional_info : String) :
    Except String UploadRequest :=
  if pyStrip user_id = "" then .error "User ID required"
  else .ok ⟨pyStrip user_id, pyStrip tags, pyStrip additional_info⟩

/-- Embedding of `UploadRequest.has_additional_info`:
`bool(self.additional_info.strip())`. -/
def hasAdditionalInfo (req : UploadRequest) : Bool :=
  pyStrip req.additional_info != ""

/-- A row of the `audio_files` table (`app/database.py::AudioFile`); the
`tags` JSON column is modelled by the list it encodes and the
`additional_info` column by the payload of its single-key mapping
`{"info": text}`. -/
structure AudioFile where
  id : String
  user_id : String
  original_filename : String
  stored_filename : String
  file_size : Nat
  mime_type : String
  tags : List String
  additional_info : Option String
  upload_timestamp : String
deriving DecidableEq, Repr

/-- The dictionary produced by `AudioFile.to_dict` (every column except
`stored_filename`). -/
structure AudioDict where
  id : String
  user_id : String
  original_filename : String
  file_size : Nat
  mime_type : String
  tags : List String
  additional_info : Option String
  upload_timestamp : String
deriving DecidableEq, Repr

/-- Embedding of `AudioFile.to_dict`. -/
def AudioFile.to_dict (f : AudioFile) : AudioDict :=
  ⟨f.id, f.user_id, f.original_filename, f.file_size, f.mime_type,
    f.tags, f.additional_info, f.upload_timestamp⟩

/-- The response body of a successful upload. -/
structure UploadResponse where
  status : String
  message : String
  file_id : String
  file_info : AudioDict
deriving DecidableEq, Repr

/-- The failure modes of the upload endpoint: the pydantic `ValueError` on a
blank user id, the 400 validation rejection, the 500 after a failed save,
and the 500 after a failed metadata insert. -/
inductive UploadErr where
  | requestInvalid (msg : String)
  | validation (msg : String)
  | storage (msg : String)
  | record (msg : String)
deriving DecidableEq, Repr

/-- Embedding of the `upload_audio` endpoint (`app/api/v1/audio.py`).
Nondeterministic inputs are parameters: `fileId` and `uuidName` stand for
the two `uuid.uuid4()` draws, `now` for `datetime.utcnow()`, and
`persistOk` for the outcome of `db.commit()`. -/
def upload_audio (fs : FS) (uploadDir : String) (rawTags rawInfo : String)
    (file : UploadFileIn) (userId fileId uuidName now : String)
    (persistOk : Bool) (guess : String → Option String) (cfg : FileConfig) :
    FS × Except UploadErr UploadResponse :=
  match mkUploadRequest userId (clean_input rawTags) (clean_input rawInfo) with
  | .error m => (fs, .error (.requestInvalid m))
  | .ok req =>
    match validate_audio_file file guess cfg with
    | (false, msg) => (fs, .error (.validation msg))
    | (true, mime) =>
      let uniqueName := generate_unique_filename uuidName (file.filename.getD "")
      let path := uploadDir ++ "/" ++ uniqueName
      match save_uploaded_file fs path file.events cfg.max_file_size with
      | (fs1, .ok n) =>
        let record : AudioFile :=
          { id := fileId
            user_id := req.user_id
            original_filename := file.filename.getD ""
            stored_filename := uniqueName
            file_size := n
            mime_type := mime
            tags := get_parsed_tags req.tags
            additional_info :=
              if hasAdditionalInfo req then some (pyStrip req.additional_info)
              else none
            upload_timestamp := now }
        if persistOk then
          (fs1, .ok ⟨"success", "File uploaded successfully", fileId, record.to_dict⟩)
        else
          (if fs1.pathExists path then fs1.erase path else fs1,
            .error (.record "Failed to save metadata"))
      | (fs1, _) => (fs1, .error (.storage "Failed to save file"))

/-- The validated field values of a `ListRequest`. -/
structure ListRequest where
  user_id : String
  tag : Option String
deriving DecidableEq, Repr

/-- The pydantic validator of `ListRequest.tag`:
`v.strip() if v and v.strip() else None`. -/
def mkListRequestTag (tag : Option String) : Option String :=
  match tag with
  | none => none
  | some v => if pyStrip v = "" then none else some (pyStrip v)

/-- Construction of `ListRequest` with its validators. -/
def mkListRequest (user_id : String) (tag : Option String) :
    Except String ListRequest :=
  if pyStrip user_id = "" then .error "User ID required"
  else .ok ⟨pyStrip user_id, mkListRequestTag tag⟩

/-- Embedding of `ListRequest.has_tag_filter`: `bool(self.tag)`. -/
def ListRequest.has_tag_filter (r : ListRequest) : Bool :=
  r.tag.getD "" != ""

/-- Embedding of `ListRequest.get_tag_filter`:
`self.tag.lower() if self.tag else None`. -/
def ListRequest.get_tag_filter (r : ListRequest) : Option String :=
  match r.tag with
  | some t => if t = "" then none else some (pyLower t)
  | none => none

/-- Embedding of `ListRequest.apply_tag_filter`: without a filter the input
is returned unchanged, otherwise the records whose lowercased tag list
contains the lowercased filter tag are kept. -/
def ListRequest.apply_tag_filter (r : ListRequest) (files : List AudioFile) :
    List AudioFile :=
  if !r.has_tag_filter then files
  else
    let tf := r.get_tag_filter.getD ""
    files.filter (fun f => (f.tags.map pyLower).contains tf)

/-- The response body of the list endpoint. -/
structure ListResponse where
  user_id : String
  total_count : Nat
  files : List AudioDict
  tag_filter : Option String
deriving DecidableEq, Repr

/-- The endpoint expression `clean_input(tag) if tag else None`. -/
def cleanTagParam (tag : Option String) : Option String :=
  match tag with
  | none => none
  | some t => if t = "" then none else some (clean_input t)

/-- Embedding of the `list_audio_files` endpoint (`app/api/v1/audio.py`);
`table` stands for the `audio_files` rows in database order. -/
def list_audio_files (table : List AudioFile) (userId : String)
    (tag : Option String) : Except String ListResponse :=
  match mkListRequest userId (cleanTagParam tag) with
  | .error m => .error m
  | .ok req =>
    let all_files := table.filter (fun f => f.user_id == req.user_id)
    let files := req.apply_tag_filter all_files
    .ok ⟨req.user_id, files.length, files.map AudioFile.to_dict,
      if req.has_tag_filter then req.tag else none⟩

/-- One element of `DownloadRequest.prepare_file_info_list`:
`{**f.to_dict(), 'stored_filename': f.stored_filename}`. -/
structure FileInfo where
  dict : AudioDict
  stored_filename : String
deriving DecidableEq, Repr

/-- Embedding of `DownloadRequest.prepare_file_info_list`. -/
def prepare_file_info_list (files : List AudioFile) : List FileInfo :=
  files.map (fun f => ⟨f.to_dict, f.stored_filename⟩)

/-- The JSON document written as `metadata.json`; `user_id` is absent from
the document written inside `create_zip_with_metadata` and present in the
one built by `DownloadRequest.create_metadata_content`. -/
structure Manifest where
  export_timestamp : String
  user_id : Option String
  total_files : Nat
  files : List FileInfo
deriving DecidableEq, Repr

/-- One entry of the produced zip archive: an audio blob added with
`zipf.write`, or a metadata document added with `zipf.writestr` /
`zipf.write` of the temp JSON file. -/
inductive ZipEntry where
  | audio (archivePath : String) (content : List Nat)
  | metadata (archivePath : String) (m : Manifest)
deriving DecidableEq, Repr

/-- The per-record loop of `create_zip_with_metadata`: entries in iteration
order, plus the `files_added` and `files_missing` counters. -/
def addAudioFiles (fs : FS) (uploadDir : String) :
    List FileInfo → List ZipEntry × Nat × Nat
  | [] => ([], 0, 0)
  | i :: rest =>
    let (es, a, m) := addAudioFiles fs uploadDir rest
    if i.stored_filename ≠ "" ∧ i.dict.original_filename ≠ "" then
      match fs.lookup (uploadDir ++ "/" ++ i.stored_filename) with
      | some content =>
        (.audio ("audio_files/" ++ i.dict.original_filename) content :: es, a + 1, m)
      | none => (es, a, m + 1)
    else (es, a, m + 1)

/-- Embedding of `app/utils.py::create_zip_with_metadata`: the audio
entries for the blobs found on disk followed by the builder's own
`metadata.json` (placeholder timestamp, no owner field, `total_files` equal
to the full record count). Returns the zip path and the archive entries;
`uuid` stands for the `uuid.uuid4()` draw in the zip name. -/
def create_zip_with_metadata (fs : FS) (audio_files : List FileInfo)
    (uploadDir tempDir uuid : String) : String × List ZipEntry :=
  let entries := (addAudioFiles fs uploadDir audio_files).1
  let metadata_content : Manifest :=
    { export_timestamp := "2024-01-01T00:00:00"
      user_id := none
      total_files := audio_files.length
      files := audio_files }
  (tempDir ++ "/audio_export_" ++ uuid ++ ".zip",
    entries ++ [.metadata "metadata.json" metadata_content])

/-- Embedding of `DownloadRequest.create_metadata_content`. -/
def create_metadata_content (userId now : String)
    (file_info_list : List FileInfo) : Manifest :=
  ⟨now, some userId, file_info_list.length, file_info_list⟩

/-- The failure modes of the download endpoint: the pydantic `ValueError`
on a blank user id and the 404 when the user has no records. -/
inductive DownloadErr where
  | requestInvalid (msg : String)
  | notFound
deriving DecidableEq, Repr

/-- Embedding of the `download_user_files` endpoint
(`app/api/v1/audio.py`): query the user's records, 404 when there are
none, build the zip, then append the endpoint's own `metadata.json` to the
archive. Returns the zip path and the final archive entries. -/
def download_user_files (fs : FS) (table : List AudioFile)
    (userId uploadDir tempDir uuid now : String) :
    Except DownloadErr (String × List ZipEntry) :=
  if pyStrip userId = "" then .error (.requestInvalid "User ID required")
  else
    let uid := pyStrip userId
    let files := table.filter (fun f => f.user_id == uid)
    if files.isEmpty then .error .notFound
    else
      let file_info_list := prepare_file_info_list files
      let zipRes := create_zip_with_metadata fs file_info_list uploadDir tempDir uuid
      let metadata_content := create_metadata_content uid now file_info_list
      .ok (zipRes.1, zipRes.2 ++ [.metadata "metadata.json" metadata_content])

/-- Embedding of `app/utils.py::cleanup_temp_file`: delete the path if it
exists; an `OSError` from `os.unlink` (modelled by `unlinkFails`) is logged
and swallowed. Returns the resulting store and the error log; the function
is total, so no failure ever reaches the caller. -/
def cleanup_temp_file (fs : FS) (path : String) (unlinkFails : Bool) :
    FS × List String :=
  if fs.pathExists path then
    if unlinkFails then (fs, ["Failed to cleanup " ++ path])
    else (fs.erase path, [])
  else (fs, [])

/-- Number of audio entries in an archive. -/
def countAudioEntries (z : List ZipEntry) : Nat :=
  (z.filter (fun e => match e with | .audio _ _ => true | _ => false)).length

/-- The metadata documents of an archive, in order. -/
def metadataEntries (z : List ZipEntry) : List (String × Manifest) :=
  z.filterMap (fun e => match e with | .metadata p m => some (p, m) | _ => none)


/-- Modelled from the amended C1 wording, for comparison with the source's
`get_parsed_tags`: split the tag text on commas, strip each entry, drop the
empty entries — without the source's empty-text guard, and with no
lowercasing and no duplicate removal. -/
def specTagNormalize (raw : String) : List String :=
  ((pySplitComma raw).map pyStrip).filter (fun t => t ≠ "")

/-- Case-insensitive whole-tag membership, written from the spec's words
(C7): some stored tag equals the filter tag up to case. -/
def specTagMatches (filterTag : String) (f : AudioFile) : Bool :=
  f.tags.any (fun tag => pyLower tag == pyLower filterTag)

/-- A type-inference oracle that never guesses. -/
def noGuess : String → Option String := fun _ => none

/-- The upload of the spec's concrete scenario: `song.mp3`,
`tag_text="Rock, rock , Pop"`, declared `audio/mpeg`, a 1000-byte stream. -/
def c1File : UploadFileIn :=
  ⟨some "song.mp3", some 1000, some "audio/mpeg", [.chunk (List.replicate 1000 7)]⟩

/-- Outcome of the spec's concrete upload scenario under the default
configuration. -/
def c1Result : FS × Except UploadErr UploadResponse :=
  upload_audio [] "audio_uploads" "Rock, rock , Pop" "" c1File "alice" "fid"
    "u1" "T0" true noGuess defaultFileConfig

/-- A stored record whose blob lives at `audio_uploads/u1.mp3`. -/
def exportRecord : AudioFile :=
  ⟨"id1", "alice", "song.mp3", "u1.mp3", 3, "audio/mpeg", ["rock"], none, "T0"⟩

/-- The file-info dictionary of `exportRecord`. -/
def exportInfo : FileInfo := ⟨exportRecord.to_dict, "u1.mp3"⟩

/-- Export for `alice` over an empty store: the single record's blob is
missing from disk. -/
def c2Export : Except DownloadErr (String × List ZipEntry) :=
  download_user_files [] [exportRecord] "alice" "audio_uploads"
    "temp_downloads" "zip1" "T1"

/-- A store holding the blob of `exportRecord`. -/
def c3FS : FS := [("audio_uploads/u1.mp3", [1, 2, 3])]

/-- Export for `alice` with the record's blob present on disk. -/
def c3Export : Except DownloadErr (String × List ZipEntry) :=
  download_user_files c3FS [exportRecord] "alice" "audio_uploads"
    "temp_downloads" "zip1" "T1"

/-- A record tagged `rock`. -/
def rockFile : AudioFile :=
  ⟨"id1", "alice", "a.mp3", "s1.mp3", 1, "audio/mpeg", ["rock"], none, "T0"⟩

/-- A record tagged `rocker`. -/
def rockerFile : AudioFile :=
  ⟨"id2", "alice", "b.mp3", "s2.mp3", 1, "audio/mpeg", ["rocker"], none, "T0"⟩

namespace FS

theorem lookup_erase_self (fs : FS) (p : String) : (fs.erase p).lookup p = none := by
  induction fs with
  | nil => rfl
  | cons b rest ih =>
    by_cases h : b.1 = p
    · simpa [erase, h] using ih
    · simpa [erase, lookup, h] using ih

theorem lookup_erase_ne (fs : FS) (p q : String) (h : q ≠ p) :
    (fs.erase p).lookup q = fs.lookup q := by
  induction fs with
  | nil => rfl
  | cons b rest ih =>
    by_cases hb : b.1 = p
    · simp [erase, lookup, hb, Ne.symm h, ih]
    · simp [erase, lookup, hb, ih]

theorem erase_erase (fs : FS) (p : String) : (fs.erase p).erase p = fs.erase p := by
  induction fs with
  | nil => rfl
  | cons b rest ih =>
    by_cases hb : b.1 = p <;> simp [erase, hb, ih]

theorem lookup_write_self (fs : FS) (p : String) (c : List Nat) :
    (fs.write p c).lookup p = some c := by
  simp [write, lookup]

theorem lookup_write_ne (fs : FS) (p q : String) (c : List Nat) (h : q ≠ p) :
    (fs.write p c).lookup q = fs.lookup q := by
  simp [write, lookup, h.symm, lookup_erase_ne fs p q h]

theorem erase_write_self (fs : FS) (p : String) (c : List Nat) :
    (fs.write p c).erase p = fs.erase p := by
  simp [write, erase, erase_erase]

theorem lookup_append_self (fs : FS) (p : String) (c : List Nat) :
    (fs.append p c).lookup p = some (((fs.lookup p).getD []) ++ c) := by
  simp [append, lookup_write_self]

end FS
theorem saveLoop_ok (events : List ReadEvent) :
    ∀ (fs : FS) (path : String) (maxSize size n : Nat) (cur : List Nat),
      fs.lookup path = some cur →
      (saveLoop fs path events maxSize size).2 = .ok n →
      n = size + (deliveredBytes events).length ∧
      (saveLoop fs path events maxSize size).1.lookup path =
        some (cur ++ deliveredBytes events) := by
  induction events with
  | nil =>
    intro fs path maxSize size n cur hcur h
    simp [saveLoop, deliveredBytes] at h ⊢
    exact ⟨h.symm, hcur⟩
  | cons e rest ih =>
    intro fs path maxSize size n cur hcur h
    cases e with
    | ioFail => simp [saveLoop] at h
    | chunk c =>
      by_cases hc : c.isEmpty
      · simp [saveLoop, hc, deliveredBytes] at h ⊢
        exact ⟨h.symm, hcur⟩
      · by_cases hover : maxSize < size + c.length
        · simp [saveLoop, hc, hover] at h
        · have hcur' : (fs.append path c).lookup path = some (cur ++ c) := by
            simp [FS.lookup_append_self, hcur]
          have hrec := ih (fs.append path c) path maxSize (size + c.length) n (cur ++ c) hcur'
            (by simpa [saveLoop, hc, hover] using h)
          simp [saveLoop, hc, hover, deliveredBytes]
          refine ⟨by omega, ?_⟩
          rw [← List.append_assoc]
          exact hrec.2

theorem saveLoop_fail (events : List ReadEvent) :
    ∀ (fs : FS) (path : String) (maxSize size : Nat),
      (saveLoop fs path events maxSize size).2 = .tooLarge ∨
        (saveLoop fs path events maxSize size).2 = .ioError →
      (saveLoop fs path events maxSize size).1.lookup path = none := by
  induction events with
  | nil =>
    intro fs path maxSize size h
    simp [saveLoop] at h
  | cons e rest ih =>
    intro fs path maxSize size h
    cases e with
    | ioFail => simp [saveLoop, FS.lookup_erase_self]
    | chunk c =>
      by_cases hc : c.isEmpty
      · simp [saveLoop, hc] at h
      · by_cases hover : maxSize < size + c.length
        · simp [saveLoop, hc, hover, FS.lookup_erase_self]
        · have := ih (fs.append path c) path maxSize (size + c.length)
            (by simpa [saveLoop, hc, hover] using h)
          simpa [saveLoop, hc, hover] using this

theorem saveLoop_tooLarge (events : List ReadEvent) :
    ∀ (fs : FS) (path : String) (maxSize size : Nat),
      size ≤ maxSize →
      maxSize < size + (deliveredBytes events).length →
      (saveLoop fs path events maxSize size).2 = .tooLarge := by
  induction events with
  | nil =>
    intro fs path maxSize size hle hlt
    simp [deliveredBytes] at hlt
    omega
  | cons e rest ih =>
    intro fs path maxSize size hle hlt
    cases e with
    | ioFail =>
      simp [deliveredBytes] at hlt
      omega
    | chunk c =>
      by_cases hc : c.isEmpty
      · simp [deliveredBytes, hc] at hlt
        omega
      · by_cases hover : maxSize < size + c.length
        · simp [saveLoop, hc, hover]
        · have hlt' : maxSize < size + c.length + (deliveredBytes rest).length := by
            simp [deliveredBytes, hc] at hlt
            omega
          have := ih (fs.append path c) path maxSize (size + c.length) (by omega) hlt'
          simpa [saveLoop, hc, hover] using this



theorem get_parsed_tags_eq_spec (t : String) :
    get_parsed_tags t = specTagNormalize t := by
  by_cases h : t = ""
  · subst h; rfl
  · simp [get_parsed_tags, specTagNormalize, h]

theorem upload_audio_ok_elim
    (fs : FS) (uploadDir rawTags rawInfo : String) (file : UploadFileIn)
    (userId fileId uuidName now : String) (persistOk : Bool)
    (guess : String → Option String) (cfg : FileConfig) (resp : UploadResponse)
    (h : (upload_audio fs uploadDir rawTags rawInfo file userId fileId uuidName now
        persistOk guess cfg).2 = .ok resp) :
    resp.file_info.tags = get_parsed_tags (pyStrip (clean_input rawTags)) ∧
    resp.file_info.file_size = (deliveredBytes file.events).length ∧
    (upload_audio fs uploadDir rawTags rawInfo file userId fileId uuidName now
        persistOk guess cfg).1.lookup
      (uploadDir ++ "/" ++ generate_unique_filename uuidName (file.filename.getD "")) =
      some (deliveredBytes file.events) := by
  by_cases hu : pyStrip userId = ""
  · simp [upload_audio, mkUploadRequest, hu] at h
  · rcases hval : validate_audio_file file guess cfg with ⟨b, s⟩
    cases b with
    | false => simp [upload_audio, mkUploadRequest, hu, hval] at h
    | true =>
      rcases hsave : save_uploaded_file fs
          (uploadDir ++ "/" ++ generate_unique_filename uuidName (file.filename.getD ""))
          file.events cfg.max_file_size with ⟨fs1, r⟩
      cases r with
      | tooLarge => simp [upload_audio, mkUploadRequest, hu, hval, hsave] at h
      | ioError => simp [upload_audio, mkUploadRequest, hu, hval, hsave] at h
      | ok n =>
        cases persistOk with
        | false => simp [upload_audio, mkUploadRequest, hu, hval, hsave] at h
        | true =>
          have hsave2 : (saveLoop (fs.write
              (uploadDir ++ "/" ++ generate_unique_filename uuidName (file.filename.getD "")) [])
              (uploadDir ++ "/" ++ generate_unique_filename uuidName (file.filename.getD ""))
              file.events cfg.max_file_size 0).2 = .ok n := by
            rw [show saveLoop (fs.write
                (uploadDir ++ "/" ++ generate_unique_filename uuidName (file.filename.getD "")) [])
                (uploadDir ++ "/" ++ generate_unique_filename uuidName (file.filename.getD ""))
                file.events cfg.max_file_size 0 = (fs1, .ok n) from hsave]
          have hchar := saveLoop_ok file.events
            (fs.write (uploadDir ++ "/" ++ generate_unique_filename uuidName (file.filename.getD "")) [])
            (uploadDir ++ "/" ++ generate_unique_filename uuidName (file.filename.getD ""))
            cfg.max_file_size 0 n []
            (FS.lookup_write_self fs _ []) hsave2
      
          have hresp : resp = ⟨"success", "File uploaded successfully", fileId,
              AudioFile.to_dict
                { id := fileId
                  user_id := pyStrip userId
                  original_filename := file.filename.getD ""
                  stored_filename := generate_unique_filename uuidName (file.filename.getD "")
                  file_size := n
                  mime_type := s
                  tags := get_parsed_tags (pyStrip (clean_input rawTags))
                  additional_info :=
                    if hasAdditionalInfo ⟨pyStrip userId, pyStrip (clean_input rawTags),
                        pyStrip (clean_input rawInfo)⟩ then
                      some (pyStrip (pyStrip (clean_input rawInfo)))
                    else none
                  upload_timestamp := now }⟩ := by
            have := h
            simp [upload_audio, mkUploadRequest, hu, hval, hsave] at this
            exact this.symm
          have hfs : (upload_audio fs uploadDir rawTags rawInfo file userId fileId uuidName now
              true guess cfg).1 = fs1 := by
            simp [upload_audio, mkUploadRequest, hu, hval, hsave]
          refine ⟨?_, ?_, ?_⟩
          · rw [hresp]
            rfl
          · rw [hresp]
            simpa [AudioFile.to_dict] using hchar.1
          · rw [hfs]
            have hl := hchar.2
            rw [show saveLoop (fs.write
                (uploadDir ++ "/" ++ generate_unique_filename uuidName (file.filename.getD "")) [])
                (uploadDir ++ "/" ++ generate_unique_filename uuidName (file.filename.getD ""))
                file.events cfg.max_file_size 0 = (fs1, SaveResult.ok n) from hsave] at hl
            simpa using hl

/-- C1: the claim says upload tags are split, trimmed, lowercased,
deduplicated; on the code they are only split, trimmed and filtered for
emptiness — the spec scenario `tag_text="Rock, rock , Pop"` stores
`["Rock", "rock", "Pop"]`, not `["rock", "pop"]`. -/
theorem C1_counterexample :
    c1Result.2 = .ok ⟨"success", "File uploaded successfully", "fid",
      ⟨"fid", "alice", "song.mp3", 1000, "audio/mpeg",
        ["Rock", "rock", "Pop"], none, "T0"⟩⟩ ∧
    (["Rock", "rock", "Pop"] : List String) ≠ ["rock", "pop"] :=
  ⟨rfl, by decide⟩

/-- C1 (amended): for every upload, the stored tag list is obtained from
the raw tag text by the input cleaning (`clean_input` and a final strip)
followed by splitting on the comma delimiter, trimming surrounding
whitespace from each entry and dropping empty entries — with no
lowercasing and no duplicate removal; in particular the raw text
`"Rock, rock , Pop"` yields `["Rock", "rock", "Pop"]`. -/
theorem C1_upload_tags_amended :
    (∀ (fs : FS) (uploadDir rawTags rawInfo : String) (file : UploadFileIn)
        (userId fileId uuidName now : String) (persistOk : Bool)
        (guess : String → Option String) (cfg : FileConfig) (resp : UploadResponse),
        (upload_audio fs uploadDir rawTags rawInfo file userId fileId uuidName now
            persistOk guess cfg).2 = .ok resp →
        resp.file_info.tags = specTagNormalize (pyStrip (clean_input rawTags))) ∧
    specTagNormalize (pyStrip (clean_input "Rock, rock , Pop")) =
      ["Rock", "rock", "Pop"] := by
  constructor
  · intro fs uploadDir rawTags rawInfo file userId fileId uuidName now persistOk
      guess cfg resp h
    rw [(upload_audio_ok_elim fs uploadDir rawTags rawInfo file userId fileId
      uuidName now persistOk guess cfg resp h).1, get_parsed_tags_eq_spec]
  · decide

/-- C1 witness: the amended statement applied to the spec scenario. -/
theorem C1_upload_tags_amended_witness :
    (["Rock", "rock", "Pop"] : List String) =
      specTagNormalize (pyStrip (clean_input "Rock, rock , Pop")) :=
  C1_upload_tags_amended.1 [] "audio_uploads" "Rock, rock , Pop" "" c1File
    "alice" "fid" "u1" "T0" true noGuess defaultFileConfig
    ⟨"success", "File uploaded successfully", "fid",
      ⟨"fid", "alice", "song.mp3", 1000, "audio/mpeg",
        ["Rock", "rock", "Pop"], none, "T0"⟩⟩
    rfl


/-- C4: when the stream delivers more than `max_size_bytes` bytes, the
streaming writer aborts with the 413 TooLarge error; on that path and on
the I/O-failure path alike, no file remains at the destination. -/
theorem C4_streaming_limit (fs : FS) (path : String) (events : List ReadEvent)
    (maxSize : Nat) :
    (maxSize < (deliveredBytes events).length →
      (save_uploaded_file fs path events maxSize).2 = .tooLarge ∧
      (save_uploaded_file fs path events maxSize).1.lookup path = none) ∧
    ((save_uploaded_file fs path events maxSize).2 = .ioError →
      (save_uploaded_file fs path events maxSize).1.lookup path = none) := by
  constructor
  · intro hlt
    have h1 : (save_uploaded_file fs path events maxSize).2 = .tooLarge :=
      saveLoop_tooLarge events (fs.write path []) path maxSize 0 (Nat.zero_le _)
        (by omega)
    exact ⟨h1, saveLoop_fail events (fs.write path []) path maxSize 0 (Or.inl h1)⟩
  · intro h
    exact saveLoop_fail events (fs.write path []) path maxSize 0 (Or.inr h)

/-- C4 witness: a three-byte stream against a two-byte cap hits TooLarge
and leaves no file; a failing read leaves no file either. -/
theorem C4_streaming_limit_witness :
    (2 < (deliveredBytes [ReadEvent.chunk [9, 9, 9]]).length ∧
      (save_uploaded_file [] "audio_uploads/u1.mp3" [ReadEvent.chunk [9, 9, 9]] 2).2 =
        .tooLarge ∧
      (save_uploaded_file [] "audio_uploads/u1.mp3" [ReadEvent.chunk [9, 9, 9]] 2).1.lookup
        "audio_uploads/u1.mp3" = none) ∧
    ((save_uploaded_file [] "audio_uploads/u2.mp3" [ReadEvent.ioFail] 100).2 = .ioError ∧
      (save_uploaded_file [] "audio_uploads/u2.mp3" [ReadEvent.ioFail] 100).1.lookup
        "audio_uploads/u2.mp3" = none) := by
  refine ⟨⟨by decide, (C4_streaming_limit [] "audio_uploads/u1.mp3"
    [ReadEvent.chunk [9, 9, 9]] 2).1 (by decide)⟩,
    by decide, (C4_streaming_limit [] "audio_uploads/u2.mp3"
      [ReadEvent.ioFail] 100).2 (by decide)⟩

/-- C6: for every successful upload the record's `file_size` equals the
number of bytes actually delivered by the stream, which is exactly the
content written at the storage path — whatever size the caller declared. -/
theorem C6_size_bytes_exact
    (fs : FS) (uploadDir rawTags rawInfo : String) (file : UploadFileIn)
    (userId fileId uuidName now : String) (persistOk : Bool)
    (guess : String → Option String) (cfg : FileConfig) (resp : UploadResponse)
    (h : (upload_audio fs uploadDir rawTags rawInfo file userId fileId uuidName now
        persistOk guess cfg).2 = .ok resp) :
    resp.file_info.file_size = (deliveredBytes file.events).length ∧
    (upload_audio fs uploadDir rawTags rawInfo file userId fileId uuidName now
        persistOk guess cfg).1.lookup
      (uploadDir ++ "/" ++ generate_unique_filename uuidName (file.filename.getD "")) =
      some (deliveredBytes file.events) :=
  (upload_audio_ok_elim fs uploadDir rawTags rawInfo file userId fileId uuidName
    now persistOk guess cfg resp h).2

/-- C6 witness: the spec scenario's 1000-byte stream yields a record with
`file_size = 1000` and that content on disk, although the declared size in
`c1File` is also consulted only for validation. -/
theorem C6_size_bytes_exact_witness :
    (1000 : Nat) = (deliveredBytes c1File.events).length ∧
    c1Result.1.lookup ("audio_uploads" ++ "/" ++ generate_unique_filename "u1"
      (c1File.filename.getD "")) = some (deliveredBytes c1File.events) :=
  C6_size_bytes_exact [] "audio_uploads" "Rock, rock , Pop" "" c1File "alice"
    "fid" "u1" "T0" true noGuess defaultFileConfig
    ⟨"success", "File uploaded successfully", "fid",
      ⟨"fid", "alice", "song.mp3", 1000, "audio/mpeg",
        ["Rock", "rock", "Pop"], none, "T0"⟩⟩
    rfl

/-- C5: when the blob was fully written but persisting the record fails,
the upload flow deletes the just-written blob and surfaces the
record-persistence failure, so no blob remains at the storage path. -/
theorem C5_compensating_delete
    (fs : FS) (uploadDir rawTags rawInfo : String) (file : UploadFileIn)
    (userId fileId uuidName now : String)
    (guess : String → Option String) (cfg : FileConfig) (n : Nat)
    (hu : pyStrip userId ≠ "")
    (hval : (validate_audio_file file guess cfg).1 = true)
    (hok : (save_uploaded_file fs
        (uploadDir ++ "/" ++ generate_unique_filename uuidName (file.filename.getD ""))
        file.events cfg.max_file_size).2 = .ok n) :
    (upload_audio fs uploadDir rawTags rawInfo file userId fileId uuidName now
        false guess cfg).2 = .error (.record "Failed to save metadata") ∧
    (upload_audio fs uploadDir rawTags rawInfo file userId fileId uuidName now
        false guess cfg).1.lookup
      (uploadDir ++ "/" ++ generate_unique_filename uuidName (file.filename.getD "")) =
      none := by
  rcases hvaleq : validate_audio_file file guess cfg with ⟨b, s⟩
  rw [hvaleq] at hval
  cases b with
  | false => exact absurd hval (by simp)
  | true =>
    rcases hsave : save_uploaded_file fs
        (uploadDir ++ "/" ++ generate_unique_filename uuidName (file.filename.getD ""))
        file.events cfg.max_file_size with ⟨fs1, r⟩
    rw [hsave] at hok
    cases r with
    | tooLarge => exact absurd hok (by simp)
    | ioError => exact absurd hok (by simp)
    | ok m =>
      constructor
      · simp [upload_audio, mkUploadRequest, hu, hvaleq, hsave]
      · by_cases hex : fs1.pathExists
          (uploadDir ++ "/" ++ generate_unique_filename uuidName (file.filename.getD ""))
        · simp [upload_audio, mkUploadRequest, hu, hvaleq, hsave, hex,
            FS.lookup_erase_self]
        · have hnone : fs1.lookup
              (uploadDir ++ "/" ++ generate_unique_filename uuidName (file.filename.getD "")) =
              none := by
            rcases hl : fs1.lookup
              (uploadDir ++ "/" ++ generate_unique_filename uuidName (file.filename.getD ""))
              with _ | c
            · rfl
            · exact absurd (by simp [FS.pathExists, hl]) hex
          simp [upload_audio, mkUploadRequest, hu, hvaleq, hsave, hex, hnone]

/-- C5 witness: the spec scenario's upload with a failing database commit
surfaces the metadata failure and leaves no blob at the storage path. -/
theorem C5_compensating_delete_witness :
    (upload_audio [] "audio_uploads" "Rock, rock , Pop" "" c1File "alice" "fid"
        "u1" "T0" false noGuess defaultFileConfig).2 =
      .error (.record "Failed to save metadata") ∧
    (upload_audio [] "audio_uploads" "Rock, rock , Pop" "" c1File "alice" "fid"
        "u1" "T0" false noGuess defaultFileConfig).1.lookup
      ("audio_uploads" ++ "/" ++ generate_unique_filename "u1"
        (c1File.filename.getD "")) = none :=
  C5_compensating_delete [] "audio_uploads" "Rock, rock , Pop" "" c1File "alice"
    "fid" "u1" "T0" noGuess defaultFileConfig 1000 (by decide) (by decide) rfl


theorem beq_comm_str (a b : String) : (a == b) = (b == a) := by
  by_cases h : a = b
  · subst h; rfl
  · have h1 : (a == b) = false := by
      simpa using h
    have h2 : (b == a) = false := by
      simpa using Ne.symm h
    rw [h1, h2]

theorem contains_map_pyLower (l : List String) (x : String) :
    (l.map pyLower).contains x = l.any (fun a => pyLower a == x) := by
  induction l with
  | nil => rfl
  | cons a l ih =>
    rw [List.map_cons, List.contains_cons, List.any_cons, ih, beq_comm_str]

/-- C7: the tag filter returns the input unchanged when no filter tag is
given; with a filter tag it returns exactly the subsequence of records one
of whose stored tags equals the filter tag case-insensitively (the
comparison is whole-tag: filtering by `Rock` keeps a record tagged `rock`
and drops one tagged only `rocker`); it is a pure function of its inputs. -/
theorem C7_tag_filter (uid : String) (files : List AudioFile) :
    ListRequest.apply_tag_filter ⟨uid, none⟩ files = files ∧
    (∀ t : String, t ≠ "" →
      ListRequest.apply_tag_filter ⟨uid, some t⟩ files =
        files.filter (specTagMatches t)) ∧
    (∀ t : String, (ListRequest.apply_tag_filter ⟨uid, some t⟩ files).Sublist files) ∧
    ListRequest.apply_tag_filter ⟨"alice", some "Rock"⟩ [rockFile, rockerFile] =
      [rockFile] := by
  refine ⟨?_, ?_, ?_, ?_⟩
  · simp [ListRequest.apply_tag_filter, ListRequest.has_tag_filter]
  · intro t ht
    have hh : ListRequest.has_tag_filter ⟨uid, some t⟩ = true := by
      simp [ListRequest.has_tag_filter, ht]
    have hg : (ListRequest.get_tag_filter ⟨uid, some t⟩).getD "" = pyLower t := by
      simp [ListRequest.get_tag_filter, ht]
    rw [ListRequest.apply_tag_filter, hh, hg]
    simp only [Bool.not_true, if_false]
    refine List.filter_congr ?_
    intro f _
    rw [contains_map_pyLower, specTagMatches]
  · intro t
    rw [ListRequest.apply_tag_filter]
    by_cases hh : ListRequest.has_tag_filter ⟨uid, some t⟩
    · rw [hh]
      simp only [Bool.not_true, if_false]
      exact List.filter_sublist _
    · rw [Bool.not_eq_true] at hh
      rw [hh]
      simp only [Bool.not_false, if_true]
      exact List.Sublist.refl _
  · rfl

/-- C8: the validator rejects with the MissingFile message when no
filename is supplied; for a named file whose declared size passes, the
effective type is the declared type when allowed, else the type inferred
from the filename when allowed, else the validator rejects with the
UnsupportedType message naming the allowed set. -/
theorem C8_validator_policy (file : UploadFileIn)
    (guess : String → Option String) (cfg : FileConfig) :
    (file.filename.getD "" = "" →
      validate_audio_file file guess cfg = (false, "No file provided")) ∧
    (file.filename.getD "" ≠ "" → declaredTooLarge file.size cfg = false →
      (∀ t, file.content_type = some t →
        cfg.supported_audio_types.contains t = true →
        validate_audio_file file guess cfg = (true, t)) ∧
      ((∀ t, file.content_type = some t →
          cfg.supported_audio_types.contains t = false) →
        (∀ g, guess (file.filename.getD "") = some g →
          cfg.supported_audio_types.contains g = true →
          validate_audio_file file guess cfg = (true, g)) ∧
        ((∀ g, guess (file.filename.getD "") = some g →
            cfg.supported_audio_types.contains g = false) →
          validate_audio_file file guess cfg = (false, unsupportedMsg cfg)))) := by
  refine ⟨?_, ?_⟩
  · intro hempty
    simp [validate_audio_file, hempty]
  · intro hname hsize
    refine ⟨?_, ?_⟩
    · intro t ht hc
      have hc2 : t ∈ cfg.supported_audio_types := by simpa using hc
      simp [validate_audio_file, hname, hsize, ht, hc2]
    · intro hdecl
      refine ⟨?_, ?_⟩
      · intro g hg hc
        have hc2 : g ∈ cfg.supported_audio_types := by simpa using hc
        cases hct : file.content_type with
        | none => simp [validate_audio_file, hname, hsize, hct, hg, hc2]
        | some t =>
          have hd : t ∉ cfg.supported_audio_types := by simpa using hdecl t hct
          simp [validate_audio_file, hname, hsize, hct, hd, hg, hc2]
      · intro hguess
        cases hct : file.content_type with
        | none =>
          cases hgg : guess (file.filename.getD "") with
          | none => simp [validate_audio_file, hname, hsize, hct, hgg]
          | some g =>
            have hg : g ∉ cfg.supported_audio_types := by simpa using hguess g hgg
            simp [validate_audio_file, hname, hsize, hct, hgg, hg]
        | some t =>
          have hd : t ∉ cfg.supported_audio_types := by simpa using hdecl t hct
          cases hgg : guess (file.filename.getD "") with
          | none => simp [validate_audio_file, hname, hsize, hct, hd, hgg]
          | some g =>
            have hg : g ∉ cfg.supported_audio_types := by simpa using hguess g hgg
            simp [validate_audio_file, hname, hsize, hct, hd, hgg, hg]

/-- C8 witness: the four branches of the policy at concrete inputs under
the default configuration. -/
theorem C8_validator_policy_witness :
    validate_audio_file ⟨none, none, none, []⟩ noGuess defaultFileConfig =
      (false, "No file provided") ∧
    validate_audio_file c1File noGuess defaultFileConfig = (true, "audio/mpeg") ∧
    validate_audio_file ⟨some "song.mp3", none, some "text/plain", []⟩
      (fun _ => some "audio/mpeg") defaultFileConfig = (true, "audio/mpeg") ∧
    validate_audio_file ⟨some "song.mp3", none, some "text/plain", []⟩
      (fun _ => some "video/mp4") defaultFileConfig =
      (false, unsupportedMsg defaultFileConfig) := by
  refine ⟨(C8_validator_policy ⟨none, none, none, []⟩ noGuess defaultFileConfig).1
    (by decide), ?_, ?_, ?_⟩
  · exact ((C8_validator_policy c1File noGuess defaultFileConfig).2 (by decide)
      (by decide)).1 "audio/mpeg" rfl (by decide)
  · exact (((C8_validator_policy ⟨some "song.mp3", none, some "text/plain", []⟩
      (fun _ => some "audio/mpeg") defaultFileConfig).2 (by decide) (by decide)).2
      (by intro t ht; cases ht; decide)).1 "audio/mpeg" rfl (by decide)
  · exact (((C8_validator_policy ⟨some "song.mp3", none, some "text/plain", []⟩
      (fun _ => some "video/mp4") defaultFileConfig).2 (by decide) (by decide)).2
      (by intro t ht; cases ht; decide)).2
      (by intro g hg; cases hg; decide)

/-- C9: the cleanup of a temporary artifact is idempotent and never
surfaces an error: on an absent path it is a silent no-op, a second call
after a successful deletion is a silent no-op, and a failing deletion only
records a log line while returning normally (the embedding is a total
function — nothing is raised on any input). -/
theorem C9_cleanup_idempotent (fs : FS) (path : String) :
    (fs.pathExists path = false →
      ∀ u : Bool, cleanup_temp_file fs path u = (fs, [])) ∧
    (∀ u : Bool,
      cleanup_temp_file (cleanup_temp_file fs path false).1 path u =
        ((cleanup_temp_file fs path false).1, [])) ∧
    (fs.pathExists path = true →
      cleanup_temp_file fs path true = (fs, ["Failed to cleanup " ++ path])) := by
  refine ⟨?_, ?_, ?_⟩
  · intro h u
    simp [cleanup_temp_file, h]
  · intro u
    by_cases h : fs.pathExists path
    · have h2 : (cleanup_temp_file fs path false).1 = fs.erase path := by
        simp [cleanup_temp_file, h]
      have h3 : (fs.erase path).pathExists path = false := by
        simp [FS.pathExists, FS.lookup_erase_self]
      rw [h2]
      simp [cleanup_temp_file, h3]
    · rw [Bool.not_eq_true] at h
      have h2 : (cleanup_temp_file fs path false).1 = fs := by
        simp [cleanup_temp_file, h]
      rw [h2]
      simp [cleanup_temp_file, h]
  · intro h
    simp [cleanup_temp_file, h]

/-- C9 witness: the three guarantees at a concrete store and path. -/
theorem C9_cleanup_idempotent_witness :
    cleanup_temp_file [] "temp_downloads/a.zip" true = ([], []) ∧
    cleanup_temp_file
        (cleanup_temp_file [("temp_downloads/a.zip", [1])] "temp_downloads/a.zip"
          false).1 "temp_downloads/a.zip" false =
      ((cleanup_temp_file [("temp_downloads/a.zip", [1])] "temp_downloads/a.zip"
          false).1, []) ∧
    cleanup_temp_file [("temp_downloads/a.zip", [1])] "temp_downloads/a.zip" true =
      ([("temp_downloads/a.zip", [1])], ["Failed to cleanup temp_downloads/a.zip"]) := by
  refine ⟨(C9_cleanup_idempotent [] "temp_downloads/a.zip").1 (by decide) true,
    (C9_cleanup_idempotent [("temp_downloads/a.zip", [1])] "temp_downloads/a.zip").2.1
      false, ?_⟩
  have h := (C9_cleanup_idempotent [("temp_downloads/a.zip", [1])]
    "temp_downloads/a.zip").2.2 (by decide)
  simpa using h


/-- C7 witness: the `ROCK` filter of the spec's concrete scenario applied
through the theorem. -/
theorem C7_tag_filter_witness :
    ListRequest.apply_tag_filter ⟨"alice", some "ROCK"⟩ [rockFile, rockerFile] =
      [rockFile, rockerFile].filter (specTagMatches "ROCK") :=
  (C7_tag_filter "alice" [rockFile, rockerFile]).2.1 "ROCK" (by decide)

theorem addAudioFiles_all_missing (fs : FS) (uploadDir : String)
    (infos : List FileInfo)
    (h : ∀ i ∈ infos, fs.lookup (uploadDir ++ "/" ++ i.stored_filename) = none) :
    (addAudioFiles fs uploadDir infos).1 = [] := by
  induction infos with
  | nil => rfl
  | cons i rest ih =>
    have hi := h i (List.mem_cons_self _ _)
    have hrest := ih (fun j hj => h j (List.mem_cons_of_mem _ hj))
    by_cases hn : i.stored_filename ≠ "" ∧ i.dict.original_filename ≠ ""
    · simp [addAudioFiles, hn, hi, hrest]
    · simp [addAudioFiles, hn, hrest]

theorem addAudioFiles_no_metadata (fs : FS) (uploadDir : String)
    (infos : List FileInfo) :
    metadataEntries (addAudioFiles fs uploadDir infos).1 = [] := by
  induction infos with
  | nil => rfl
  | cons i rest ih =>
    by_cases hn : i.stored_filename ≠ "" ∧ i.dict.original_filename ≠ ""
    · rcases hl : fs.lookup (uploadDir ++ "/" ++ i.stored_filename) with _ | c
      · simp [addAudioFiles, hn, hl, ih]
      · simp [addAudioFiles, hn, hl, metadataEntries, List.filterMap_cons] at ih ⊢
        exact ih
    · simp [addAudioFiles, hn, ih]

theorem addAudioFiles_count (fs : FS) (uploadDir : String)
    (infos : List FileInfo) :
    countAudioEntries (addAudioFiles fs uploadDir infos).1 =
      (infos.filter (fun i => i.stored_filename != "" &&
        i.dict.original_filename != "" &&
        (fs.lookup (uploadDir ++ "/" ++ i.stored_filename)).isSome)).length := by
  induction infos with
  | nil => rfl
  | cons i rest ih =>
    by_cases hn : i.stored_filename ≠ "" ∧ i.dict.original_filename ≠ ""
    · rcases hl : fs.lookup (uploadDir ++ "/" ++ i.stored_filename) with _ | c
      · simp [addAudioFiles, hn, hl, List.filter_cons, ih]
      · simp [addAudioFiles, countAudioEntries, hn, hl, List.filter_cons] at ih ⊢
        exact ih
    · simp [addAudioFiles, hn, List.filter_cons, ih]

theorem countAudioEntries_append (a b : List ZipEntry) :
    countAudioEntries (a ++ b) = countAudioEntries a + countAudioEntries b := by
  simp [countAudioEntries, List.filter_append]

theorem metadataEntries_append (a b : List ZipEntry) :
    metadataEntries (a ++ b) = metadataEntries a ++ metadataEntries b := by
  simp [metadataEntries, List.filterMap_append]

/-- C2: on the code an export whose records all have missing blobs does
not fail with EmptyArchive — it succeeds and produces an archive with zero
audio entries (only the two metadata documents). -/
theorem C2_counterexample :
    c2Export = .ok ("temp_downloads/audio_export_zip1.zip",
      [ZipEntry.metadata "metadata.json" ⟨"2024-01-01T00:00:00", none, 1, [exportInfo]⟩,
       ZipEntry.metadata "metadata.json" ⟨"T1", some "alice", 1, [exportInfo]⟩]) ∧
    countAudioEntries
      [ZipEntry.metadata "metadata.json" ⟨"2024-01-01T00:00:00", none, 1, [exportInfo]⟩,
       ZipEntry.metadata "metadata.json" ⟨"T1", some "alice", 1, [exportInfo]⟩] = 0 :=
  ⟨rfl, rfl⟩

/-- C2 (amended): for every export where the owner has at least one record
but every record's referenced blob is missing from disk, the operation
succeeds and produces an archive whose audio section is empty — it fails
only when the owner has no records at all (the 404), and no EmptyArchive
error exists. -/
theorem C2_export_all_missing_amended
    (fs : FS) (table : List AudioFile) (userId uploadDir tempDir uuid now : String)
    (hu : pyStrip userId ≠ "")
    (hne : table.filter (fun f => f.user_id == pyStrip userId) ≠ [])
    (hmiss : ∀ f ∈ table.filter (fun f => f.user_id == pyStrip userId),
      fs.lookup (uploadDir ++ "/" ++ f.stored_filename) = none) :
    ∃ z : String × List ZipEntry,
      download_user_files fs table userId uploadDir tempDir uuid now = .ok z ∧
      countAudioEntries z.2 = 0 ∧ (metadataEntries z.2).length = 2 := by
  have hmiss2 : ∀ i ∈ prepare_file_info_list
      (table.filter (fun f => f.user_id == pyStrip userId)),
      fs.lookup (uploadDir ++ "/" ++ i.stored_filename) = none := by
    intro i hi
    rcases List.mem_map.mp hi with ⟨f, hf, rfl⟩
    exact hmiss f hf
  have hzero := addAudioFiles_all_missing fs uploadDir _ hmiss2
  have hempty : (table.filter (fun f => f.user_id == pyStrip userId)).isEmpty = false := by
    rcases hcase : table.filter (fun f => f.user_id == pyStrip userId) with _ | ⟨x, xs⟩
    · exact absurd hcase hne
    · rw [hcase]
      rfl
  refine ⟨(tempDir ++ "/audio_export_" ++ uuid ++ ".zip",
    [ZipEntry.metadata "metadata.json" ⟨"2024-01-01T00:00:00", none,
      (prepare_file_info_list (table.filter (fun f => f.user_id == pyStrip userId))).length,
      prepare_file_info_list (table.filter (fun f => f.user_id == pyStrip userId))⟩,
     ZipEntry.metadata "metadata.json" ⟨now, some (pyStrip userId),
      (prepare_file_info_list (table.filter (fun f => f.user_id == pyStrip userId))).length,
      prepare_file_info_list (table.filter (fun f => f.user_id == pyStrip userId))⟩]),
    ?_, ?_, ?_⟩
  · simp only [download_user_files, hu, if_false, hempty, Bool.false_eq_true,
      create_zip_with_metadata, hzero, List.nil_append]
    rfl
  · rfl
  · rfl

/-- C2 witness: the amended statement at the concrete one-record export
over an empty store. -/
theorem C2_export_all_missing_amended_witness :
    ∃ z : String × List ZipEntry,
      download_user_files [] [exportRecord] "alice" "audio_uploads"
        "temp_downloads" "zip1" "T1" = .ok z ∧
      countAudioEntries z.2 = 0 ∧ (metadataEntries z.2).length = 2 :=
  C2_export_all_missing_amended [] [exportRecord] "alice" "audio_uploads"
    "temp_downloads" "zip1" "T1" (by decide) (by decide) (by decide)


/-- C3: the archive of a successful export does not contain exactly one
metadata document — it contains two entries named `metadata.json` (the
builder writes one without the owner identifier and with a placeholder
timestamp, and the endpoint appends a second one with the owner). -/
theorem C3_counterexample :
    c3Export = .ok ("temp_downloads/audio_export_zip1.zip",
      [ZipEntry.audio "audio_files/song.mp3" [1, 2, 3],
       ZipEntry.metadata "metadata.json" ⟨"2024-01-01T00:00:00", none, 1, [exportInfo]⟩,
       ZipEntry.metadata "metadata.json" ⟨"T1", some "alice", 1, [exportInfo]⟩]) ∧
    (metadataEntries
      [ZipEntry.audio "audio_files/song.mp3" [1, 2, 3],
       ZipEntry.metadata "metadata.json" ⟨"2024-01-01T00:00:00", none, 1, [exportInfo]⟩,
       ZipEntry.metadata "metadata.json" ⟨"T1", some "alice", 1, [exportInfo]⟩]).length = 2 ∧
    (2 : Nat) ≠ 1 :=
  ⟨rfl, rfl, by decide⟩

/-- C3 (amended): every successful export's archive contains exactly two
metadata documents at the archive root, both named `metadata.json`: the
builder's, with a placeholder export timestamp, no owner field, a
`total_files` equal to the full record count (including records with
missing blobs) and a files list carrying every record's full metadata
including `stored_filename`; and the endpoint's, identical except for the
true export timestamp and the owner identifier. The entries under
`audio_files/` number exactly the records with non-empty names whose blobs
are present on disk. -/
theorem C3_export_manifest_amended
    (fs : FS) (table : List AudioFile) (userId uploadDir tempDir uuid now : String)
    (hu : pyStrip userId ≠ "")
    (hne : table.filter (fun f => f.user_id == pyStrip userId) ≠ []) :
    ∃ z : String × List ZipEntry,
      download_user_files fs table userId uploadDir tempDir uuid now = .ok z ∧
      metadataEntries z.2 =
        [("metadata.json", ⟨"2024-01-01T00:00:00", none,
          (table.filter (fun f => f.user_id == pyStrip userId)).length,
          prepare_file_info_list (table.filter (fun f => f.user_id == pyStrip userId))⟩),
         ("metadata.json", ⟨now, some (pyStrip userId),
          (table.filter (fun f => f.user_id == pyStrip userId)).length,
          prepare_file_info_list (table.filter (fun f => f.user_id == pyStrip userId))⟩)] ∧
      countAudioEntries z.2 =
        ((table.filter (fun f => f.user_id == pyStrip userId)).filter
          (fun f => f.stored_filename != "" && f.original_filename != "" &&
            (fs.lookup (uploadDir ++ "/" ++ f.stored_filename)).isSome)).length := by
  have hempty : (table.filter (fun f => f.user_id == pyStrip userId)).isEmpty = false := by
    rcases hcase : table.filter (fun f => f.user_id == pyStrip userId) with _ | ⟨x, xs⟩
    · exact absurd hcase hne
    · rw [hcase]
      rfl
  have hlen : (prepare_file_info_list
      (table.filter (fun f => f.user_id == pyStrip userId))).length =
      (table.filter (fun f => f.user_id == pyStrip userId)).length := by
    simp [prepare_file_info_list]
  refine ⟨((create_zip_with_metadata fs
      (prepare_file_info_list (table.filter (fun f => f.user_id == pyStrip userId)))
      uploadDir tempDir uuid).1,
    (create_zip_with_metadata fs
      (prepare_file_info_list (table.filter (fun f => f.user_id == pyStrip userId)))
      uploadDir tempDir uuid).2 ++
      [ZipEntry.metadata "metadata.json"
        (create_metadata_content (pyStrip userId) now
          (prepare_file_info_list (table.filter (fun f => f.user_id == pyStrip userId))))]),
    ?_, ?_, ?_⟩
  · simp only [download_user_files, hu, if_false, hempty, Bool.false_eq_true]
  · simp only [create_zip_with_metadata]
    rw [metadataEntries_append, metadataEntries_append,
      addAudioFiles_no_metadata fs uploadDir]
    simp [metadataEntries, create_metadata_content, hlen]
  · simp only [create_zip_with_metadata]
    rw [countAudioEntries_append, countAudioEntries_append, addAudioFiles_count]
    have hmeta1 : countAudioEntries [ZipEntry.metadata "metadata.json"
        { export_timestamp := "2024-01-01T00:00:00", user_id := none,
          total_files := (prepare_file_info_list
            (table.filter (fun f => f.user_id == pyStrip userId))).length,
          files := prepare_file_info_list
            (table.filter (fun f => f.user_id == pyStrip userId)) }] = 0 := rfl
    have hmeta2 : countAudioEntries [ZipEntry.metadata "metadata.json"
        (create_metadata_content (pyStrip userId) now
          (prepare_file_info_list (table.filter (fun f => f.user_id == pyStrip userId))))] =
        0 := rfl
    rw [hmeta1, hmeta2]
    have hfm : (prepare_file_info_list
        (table.filter (fun f => f.user_id == pyStrip userId))).filter
        (fun i => i.stored_filename != "" && i.dict.original_filename != "" &&
          (fs.lookup (uploadDir ++ "/" ++ i.stored_filename)).isSome) =
        ((table.filter (fun f => f.user_id == pyStrip userId)).filter
          (fun f => f.stored_filename != "" && f.original_filename != "" &&
            (fs.lookup (uploadDir ++ "/" ++ f.stored_filename)).isSome)).map
          (fun f => ⟨f.to_dict, f.stored_filename⟩) := by
      rw [prepare_file_info_list, List.filter_map]
      rfl
    rw [hfm]
    simp

/-- C3 witness: the amended statement at the concrete one-record export
with the blob present. -/
theorem C3_export_manifest_amended_witness :
    ∃ z : String × List ZipEntry,
      download_user_files c3FS [exportRecord] "alice" "audio_uploads"
        "temp_downloads" "zip1" "T1" = .ok z ∧
      metadataEntries z.2 =
        [("metadata.json", ⟨"2024-01-01T00:00:00", none,
          ([exportRecord].filter (fun f => f.user_id == pyStrip "alice")).length,
          prepare_file_info_list ([exportRecord].filter (fun f => f.user_id == pyStrip "alice"))⟩),
         ("metadata.json", ⟨"T1", some (pyStrip "alice"),
          ([exportRecord].filter (fun f => f.user_id == pyStrip "alice")).length,
          prepare_file_info_list ([exportRecord].filter (fun f => f.user_id == pyStrip "alice"))⟩)] ∧
      countAudioEntries z.2 =
        (([exportRecord].filter (fun f => f.user_id == pyStrip "alice")).filter
          (fun f => f.stored_filename != "" && f.original_filename != "" &&
            (c3FS.lookup ("audio_uploads" ++ "/" ++ f.stored_filename)).isSome)).length :=
  C3_export_manifest_amended c3FS [exportRecord] "alice" "audio_uploads"
    "temp_downloads" "zip1" "T1" (by decide) (by decide)


theorem stripChars_sublist (l : List Char) : (stripChars l).Sublist l := by
  have h1 : (l.dropWhile isPySpace).Sublist l := List.dropWhile_sublist _
  have h2 : ((l.dropWhile isPySpace).reverse.dropWhile isPySpace).Sublist
      (l.dropWhile isPySpace).reverse := List.dropWhile_sublist _
  have h3 := h2.reverse
  rw [List.reverse_reverse] at h3
  exact h3.trans h1

theorem clean_input_bounds (text : String) :
    (clean_input text).length ≤ 255 ∧
      ∀ c ∈ (clean_input text).data, 32 ≤ c.toNat := by
  rw [clean_input]
  by_cases h : text = ""
  · simp [h]
  · rw [if_neg h]
    constructor
    · have h1 : (stripChars ((text.data.filter fun c => 32 ≤ c.toNat).take 255)).length ≤
          ((text.data.filter fun c => 32 ≤ c.toNat).take 255).length :=
        (stripChars_sublist _).length_le
      have h2 : ((text.data.filter fun c => 32 ≤ c.toNat).take 255).length ≤ 255 :=
        List.length_take_le _ _
      exact le_trans h1 h2
    · intro c hc
      have hc1 : c ∈ (text.data.filter fun c => 32 ≤ c.toNat).take 255 :=
        (stripChars_sublist _).subset hc
      have hc2 : c ∈ text.data.filter fun c => 32 ≤ c.toNat :=
        (List.take_sublist _ _).subset hc1
      simpa using (List.mem_filter.mp hc2).2

/-- C10: before any parsing, upload tag text and additional-info text and
the list filter tag all pass through `clean_input`, which removes every
character below code point 32, truncates to at most 255 characters and
strips surrounding whitespace — so the cleaned text never exceeds 255
characters, carries no control characters, only the cleaned text influences
the call, and inputs longer than 255 characters are silently truncated. -/
theorem C10_input_preprocessing :
    (∀ text : String, (clean_input text).length ≤ 255 ∧
      ∀ c ∈ (clean_input text).data, 32 ≤ c.toNat) ∧
    (∀ (fs : FS) (uploadDir rawTags rawTags2 rawInfo rawInfo2 : String)
        (file : UploadFileIn) (userId fileId uuidName now : String)
        (persistOk : Bool) (guess : String → Option String) (cfg : FileConfig),
        clean_input rawTags = clean_input rawTags2 →
        clean_input rawInfo = clean_input rawInfo2 →
        upload_audio fs uploadDir rawTags rawInfo file userId fileId uuidName
            now persistOk guess cfg =
          upload_audio fs uploadDir rawTags2 rawInfo2 file userId fileId uuidName
            now persistOk guess cfg) ∧
    (∀ (table : List AudioFile) (userId t t2 : String),
        t ≠ "" → t2 ≠ "" → clean_input t = clean_input t2 →
        list_audio_files table userId (some t) =
          list_audio_files table userId (some t2)) ∧
    clean_input (String.mk (List.replicate 300 'a')) =
      String.mk (List.replicate 255 'a') ∧
    String.mk (List.replicate 300 'a') ≠ String.mk (List.replicate 255 'a') := by
  refine ⟨clean_input_bounds, ?_, ?_, ?_, ?_⟩
  · intro fs uploadDir rawTags rawTags2 rawInfo rawInfo2 file userId fileId
      uuidName now persistOk guess cfg h1 h2
    rw [upload_audio, upload_audio, h1, h2]
  · intro table userId t t2 ht ht2 hc
    rw [list_audio_files, list_audio_files, cleanTagParam, cleanTagParam,
      if_neg ht, if_neg ht2, hc]
  · rfl
  · decide

/-- C10 witness: concrete instances — a control character and length-255
truncation do not change the call, and the cleaned text obeys the bounds. -/
theorem C10_input_preprocessing_witness :
    ((clean_input "  tag  ").length ≤ 255 ∧ 32 ≤ 'g'.toNat) ∧
    upload_audio [] "audio_uploads" "Rock, rock , Pop" "" c1File "alice" "fid"
        "u1" "T0" true noGuess defaultFileConfig =
      upload_audio [] "audio_uploads" "\x01Rock, rock , Pop" "\x01" c1File
        "alice" "fid" "u1" "T0" true noGuess defaultFileConfig ∧
    list_audio_files [rockFile] "alice" (some "ROCK") =
      list_audio_files [rockFile] "alice" (some " ROCK ") :=
  ⟨⟨(C10_input_preprocessing.1 "  tag  ").1,
    (C10_input_preprocessing.1 "  tag  ").2 'g' (by decide)⟩,
   C10_input_preprocessing.2.1 [] "audio_uploads" "Rock, rock , Pop"
     "\x01Rock, rock , Pop" "" "\x01" c1File "alice" "fid" "u1" "T0" true
     noGuess defaultFileConfig (by decide) (by decide),
   C10_input_preprocessing.2.2.1 [rockFile] "alice" "ROCK" " ROCK "
     (by decide) (by decide) (by decide)⟩

end App
